import Mathlib

/-!
Shallow embedding of the library-catalog web service, translated from
services.py, schemas.py, main.py and db.py.

The SQL tables are modelled as explicit lists of records.  The jose JWT
collaborator is modelled by a record of claims together with the signing key
and a well-formedness flag; the passlib hasher is passed in as an abstract
verify function.  Fallible code returns Except, with an HTTPException
modelled as a status-code / detail pair.
-/

deriving instance DecidableEq for Except

/-- An HTTPException: status code and detail message. -/
abbrev Err := Nat × String

/-- A JWT as produced by jose (services.py, create_access_token and
create_refresh_token).  The fields are the encoded claims; field key is the
key the token was signed with, so that verification against key k succeeds
exactly when key = k (a token with a tampered signature is one whose key
does not match the verifier); wellFormed is false for a token whose payload
does not decode at all. -/
structure Token where
  sub : Option String
  iat : Nat
  exp : Nat
  scope : String
  key : String
  wellFormed : Bool
deriving DecidableEq, Repr

/-- The two failure classes jose jwt.decode raises; both are subclasses of
JWTError in the source and are caught by the same handler. -/
inductive JWTError
  | invalid
  | expired
deriving DecidableEq, Repr

/-- Models jose jwt.decode(token, key, algorithms=[ALGORITHM]): a malformed
payload or a signature that does not verify raises JWTError; an exp claim at
or before the current time raises ExpiredSignatureError (a JWTError). -/
def jwt_decode (tok : Token) (key : String) (now : Nat) : Except JWTError Token :=
  if tok.wellFormed = false then .error JWTError.invalid
  else if (tok.key == key) = false then .error JWTError.invalid
  else if tok.exp ≤ now then .error JWTError.expired
  else .ok tok

/-- services.py create_access_token: payload data is the dict with key sub;
expiry defaults to 15 minutes from now; the scope claim is access_token. -/
def create_access_token (key : String) (sub : String) (now : Nat) : Token :=
  { sub := some sub, iat := now, exp := now + 15 * 60,
    scope := "access_token", key := key, wellFormed := true }

/-- services.py create_refresh_token: same shape, expiry 7 days, scope
refresh_token. -/
def create_refresh_token (key : String) (sub : String) (now : Nat) : Token :=
  { sub := some sub, iat := now, exp := now + 7 * 24 * 60 * 60,
    scope := "refresh_token", key := key, wellFormed := true }

/-- A row of the users table (db schema: users(id, email unique, username,
hashed_password, refresh_token nullable)). -/
structure User where
  id : Nat
  email : String
  username : String
  hashed_password : String
  refresh_token : Option Token
deriving DecidableEq, Repr

/-- services.py authenticate_user: SELECT * FROM users WHERE email = :email,
then verify the password against the stored hash.  The Python function
returns False both when no row comes back and when the hash check fails;
that shared failure value is modelled as none. -/
def authenticate_user (verify : String → String → Bool) (db : List User)
    (email password : String) : Option User :=
  match db.find? (fun u => u.email == email) with
  | none => none
  | some u => if verify password u.hashed_password then some u else none

/-- The HTTPException raised on every failure path of get_current_user. -/
def credentials_exception : Err := (401, "Could not validate credentials")

/-- services.py get_current_user: decode the bearer token, read the sub
claim, load the user by that email (LIMIT 1); any JWTError, a missing sub
claim, and a missing user all raise the same 401 credentials_exception. -/
def get_current_user (key : String) (now : Nat) (tok : Token)
    (db : List User) : Except Err User :=
  match jwt_decode tok key now with
  | .error _ => .error credentials_exception
  | .ok payload =>
    match payload.sub with
    | none => .error credentials_exception
    | some email =>
      match db.find? (fun u => u.email == email) with
      | none => .error credentials_exception
      | some u => .ok u

/-- services.py signin: authenticate, then issue the token pair and write
the refresh token onto the user row with a single UPDATE ... WHERE id. -/
def signin (key : String) (verify : String → String → Bool) (now : Nat)
    (db : List User) (email password : String) :
    Except Err (List User × Token × Token) :=
  match authenticate_user verify db email password with
  | none => .error (400, "Incorrect email or password")
  | some u =>
    let access := create_access_token key u.email now
    let refresh := create_refresh_token key u.email now
    let db1 := db.map (fun v =>
      if v.id == u.id then { v with refresh_token := some refresh } else v)
    .ok (db1, access, refresh)

/-- A value bound into a parameterized SQL statement.  The drivers accept
strings (and other scalars); binding a whole result-row mapping is not a
supported parameter type and raises at execute time. -/
inductive SqlParam
  | str (s : String)
  | row (u : User)
deriving DecidableEq, Repr

/-- services.py signout: UPDATE users SET refresh_token = NULL WHERE
email = :email.  The email parameter is whatever value the caller passed;
a non-string bind value makes execute raise, leaving the table unchanged. -/
def signout (emailParam : SqlParam) (db : List User) :
    Except Err (List User) :=
  match emailParam with
  | .str email =>
    .ok (db.map (fun u =>
      if u.email == email then { u with refresh_token := none } else u))
  | .row _ => .error (500, "unsupported bind parameter type")

/-- main.py logout endpoint: it passes current_user itself, the whole row
returned by get_current_user, as the user_email argument of signout.  The
except-Exception handler turns the resulting driver error into a 500.  The
pair returned here is the visible table state together with the HTTP
outcome. -/
def logout (current_user : User) (db : List User) :
    List User × Except Err String :=
  match signout (SqlParam.row current_user) db with
  | .ok db1 => (db1, .ok "Successfully logged out")
  | .error _ => (db, .error (500, "Error signing out"))

/-! ## Python string primitives

The Python string methods used by the source (strip, lower, endswith,
isdigit plus int conversion) are modelled as structurally recursive
functions over the character list of the string, so that every claim can be
evaluated on concrete inputs. -/

/-- Drop leading whitespace characters. -/
def dropLeadWs : List Char → List Char
  | [] => []
  | c :: cs => if c.isWhitespace then dropLeadWs cs else c :: cs

/-- Models Python str.strip(): remove whitespace from both ends. -/
def pyStrip (s : String) : String :=
  String.mk (((dropLeadWs s.data).reverse |> dropLeadWs).reverse)

/-- Models Python str.lower() (ASCII case mapping, which covers every
string the source compares). -/
def pyLower (s : String) : String :=
  String.mk (s.data.map Char.toLower)

/-- Leading-match test on character lists. -/
def charsLeadMatch : List Char → List Char → Bool
  | [], _ => true
  | _ :: _, [] => false
  | c :: cs, d :: ds => c == d && charsLeadMatch cs ds

/-- Models Python str.endswith(pat). -/
def pyEndsWith (s pat : String) : Bool :=
  charsLeadMatch pat.data.reverse s.data.reverse

/-- Digit run evaluation: the accumulator form of int(s). -/
def parseDigitsAux : List Char → Nat → Option Nat
  | [], acc => some acc
  | c :: cs, acc =>
    if c.isDigit then parseDigitsAux cs (acc * 10 + (c.toNat - 48)) else none

/-- Models the coercion guard of bulk_import: s.isdigit() followed by
int(s).  Returns none when s is empty or holds any non-digit character. -/
def pyDigitsToNat (s : String) : Option Nat :=
  match s.data with
  | [] => none
  | l => parseDigitsAux l 0

/-! ## Schema validators (schemas.py) -/

/-- schemas.py book_genres. -/
def book_genres : List String := ["Fiction", "Non-fiction", "Science", "History"]

/-- schemas.py book_genres_lower. -/
def book_genres_lower : List String := book_genres.map (fun g => pyLower g)

/-- schemas.py CURRENT_YEAR. -/
def CURRENT_YEAR : Int := 2025

namespace BookCreate

/-- schemas.py BookCreate.genre_valid: reject unless the lowercased genre is
a member of book_genres_lower, then return the canonical spelling found at
the same index of book_genres. -/
def genre_valid (genre : String) : Except String String :=
  if (book_genres_lower.contains (pyLower genre)) = false then
    .error ("Enter appropriate genre: " ++ String.intercalate ", " book_genres)
  else
    .ok (book_genres.getD (book_genres_lower.indexOf (pyLower genre)) "")

/-- schemas.py BookCreate.published_year_valid. -/
def published_year_valid (published_year : Int) : Except String Int :=
  if published_year < 1800 ∨ published_year > CURRENT_YEAR then
    .error "Enter a valid published year(between 1800 and Current year)"
  else .ok published_year

end BookCreate

namespace BookUpdate

/-- schemas.py BookUpdate.genre_valid, identical in body to the BookCreate
validator. -/
def genre_valid (genre : String) : Except String String :=
  if (book_genres_lower.contains (pyLower genre)) = false then
    .error ("Enter appropriate genre: " ++ String.intercalate ", " book_genres)
  else
    .ok (book_genres.getD (book_genres_lower.indexOf (pyLower genre)) "")

/-- schemas.py BookUpdate.published_year_valid, identical in body to the
BookCreate validator. -/
def published_year_valid (published_year : Int) : Except String Int :=
  if published_year < 1800 ∨ published_year > CURRENT_YEAR then
    .error "Enter a valid published year(between 1800 and Current year)"
  else .ok published_year

end BookUpdate

/-! ## Authors, books, and the session discipline (db.py) -/

/-- A row of the authors table. -/
structure Author where
  id : Nat
  full_name : String
deriving DecidableEq, Repr

/-- A row of the books table. -/
structure Book where
  id : Nat
  title : String
  author_id : Nat
  published_year : Int
  genre : String
  created_at : Nat
deriving DecidableEq, Repr

/-- The joined record the book queries return (schemas.py BookOut). -/
structure BookOut where
  id : Nat
  title : String
  author : String
  published_year : Int
  genre : String
  created_at : Nat
deriving DecidableEq, Repr

/-- The book-catalog side of the store. -/
structure LibDB where
  authors : List Author
  books : List Book
deriving DecidableEq, Repr

/-- An open database session (db.py DatabaseSessionManager.session):
committed is the durable table state; current additionally holds the
uncommitted writes of this session, which sees its own writes.  A commit
makes current durable; the session manager rolls current back to committed
when the operation raises. -/
structure SessState where
  committed : LibDB
  current : LibDB
deriving DecidableEq, Repr

/-- A fresh session over a durable state. -/
def sessOf (d : LibDB) : SessState := { committed := d, current := d }

/-- Models session.commit(). -/
def commitS (s : SessState) : SessState :=
  { committed := s.current, current := s.current }

/-- The autoincrement id the store assigns to the next inserted author
row. -/
def nextAuthorId (authors : List Author) : Nat :=
  (authors.foldl (fun m a => max m a.id) 0) + 1

/-- The autoincrement id the store assigns to the next inserted book
row. -/
def nextBookId (books : List Book) : Nat :=
  (books.foldl (fun m b => max m b.id) 0) + 1

/-- services.py _get_or_create_author.  The emptiness check is on the
trimmed name, but both the lookup (SELECT id FROM authors WHERE
full_name = :full_name) and the INSERT use the raw full_name argument
unchanged.  A newly inserted author row is committed on the spot, and its
id is re-read with SELECT id ... ORDER BY id DESC LIMIT 1; a result of 0
below models that query returning no row, which the Python code checks
with a falsy test and turns into a 500. -/
def get_or_create_author (s : SessState) (full_name : String) :
    SessState × Except Err Nat :=
  if (pyStrip full_name) == "" then
    (s, .error (400, "Author name cannot be empty"))
  else
    match s.current.authors.find? (fun a => a.full_name == full_name) with
    | some a => (s, .ok a.id)
    | none =>
      let nid := nextAuthorId s.current.authors
      let cur := { s.current with
        authors := s.current.authors ++ [{ id := nid, full_name := full_name }] }
      let s1 := commitS { committed := s.committed, current := cur }
      let lastId := (cur.authors.filter (fun a => a.full_name == full_name)).foldl
        (fun m a => max m a.id) 0
      if lastId == 0 then (s1, .error (500, "Failed to create author"))
      else (s1, .ok lastId)

/-! ## Bulk import (services.py bulk_import) -/

/-- A JSON value as decoded by json.loads, restricted to the shapes the
importer distinguishes (the import rows of this service carry strings,
integers, nulls, arrays and objects; floats and booleans are not
modelled).  null also models the None that csv.DictReader yields for a
missing field. -/
inductive JsonVal
  | null
  | str (s : String)
  | int (n : Int)
  | arr (xs : List JsonVal)
  | obj (fields : List (String × JsonVal))

/-- Python dict .get(key) over decoded object fields; none models the
default None. -/
def jsonGet (fields : List (String × JsonVal)) (key : String) : Option JsonVal :=
  (fields.find? (fun kv => kv.1 == key)).map (fun kv => kv.2)

/-- Python raw.get(key) where raw may be any decoded value; reading a key
of a non-object is the callers AttributeError, surfaced through
pyGetStrField. -/
def jsonGetV (raw : JsonVal) (key : String) : Option JsonVal :=
  match raw with
  | .obj fields => jsonGet fields key
  | _ => none

/-- Models the extraction (raw.get(key) or "").strip() of bulk_import: a
non-object raw value raises AttributeError at .get; a falsy field value
(absent, null, empty string, zero, empty collection) coerces to the empty
string; a truthy non-string value raises AttributeError at .strip.  The
AttributeError messages stand in for the str(e) text of the Python
exceptions. -/
def pyGetStrField (raw : JsonVal) (key : String) : Except String String :=
  match raw with
  | .obj fields =>
    match jsonGet fields key with
    | none => .ok ""
    | some .null => .ok ""
    | some (.str s) => .ok (pyStrip s)
    | some (.int n) =>
      if n == 0 then .ok ""
      else .error "AttributeError: object has no attribute strip"
    | some (.arr xs) =>
      if xs.isEmpty then .ok ""
      else .error "AttributeError: object has no attribute strip"
    | some (.obj fs) =>
      if fs.isEmpty then .ok ""
      else .error "AttributeError: object has no attribute strip"
  | _ => .error "AttributeError: object has no attribute get"

/-- Insertion step for sorting. -/
def insertLe {α : Type} (le : α → α → Bool) (x : α) : List α → List α
  | [] => [x]
  | y :: ys => if le x y then x :: y :: ys else y :: insertLe le x ys

/-- Insertion sort with a boolean comparator. -/
def sortWith {α : Type} (le : α → α → Bool) (l : List α) : List α :=
  l.foldr (insertLe le) []

/-- Lexicographic comparison of character lists by code point. -/
def charsLt : List Char → List Char → Bool
  | [], [] => false
  | [], _ :: _ => true
  | _ :: _, [] => false
  | c :: cs, d :: ds =>
    if c.toNat < d.toNat then true
    else if d.toNat < c.toNat then false
    else charsLt cs ds

/-- Lexicographic string order as a boolean, matching Python string
comparison by code point. -/
def strLe (a b : String) : Bool := !(charsLt b.data a.data)

/-- The genre row-error message of bulk_import, built over
sorted(book_genres). -/
def bulk_genre_error : String :=
  "genre must be one of: " ++ String.intercalate ", " (sortWith strLe book_genres)

/-- Models str(HTTPException(status, detail)) as recorded in a row error
entry. -/
def errText (e : Err) : String := toString e.1 ++ ": " ++ e.2

/-- Per-row extraction and validation of bulk_import (the try-block body up
to the genre check): trim title and author, coerce a pure-digit
published_year string to an integer, then check title nonempty, author
nonempty, year an integer within [1800, CURRENT_YEAR], genre an exact
member of book_genres.  The 2025 in the year message is the interpolated
CURRENT_YEAR. -/
def validateRow (raw : JsonVal) : Except String (String × String × Int × String) :=
  match pyGetStrField raw "title" with
  | .error e => .error e
  | .ok title =>
    match pyGetStrField raw "author" with
    | .error e => .error e
    | .ok author =>
      let py0 := jsonGetV raw "published_year"
      let genre := jsonGetV raw "genre"
      let py : Option JsonVal :=
        match py0 with
        | some (.str s) =>
          match pyDigitsToNat s with
          | some n => some (.int (Int.ofNat n))
          | none => some (.str s)
        | v => v
      if title == "" then .error "title is required"
      else if author == "" then .error "author is required"
      else
        match py with
        | some (.int y) =>
          if y < 1800 ∨ y > CURRENT_YEAR then
            .error "published_year must be between 1800 and 2025"
          else
            match genre with
            | some (.str g) =>
              if book_genres.contains g then .ok (title, author, y, g)
              else .error bulk_genre_error
            | _ => .error bulk_genre_error
        | _ => .error "published_year must be integer"

/-- One iteration of the bulk_import insert loop: validate the row, resolve
or create the author, insert the book row with the next id and the server
timestamp.  The second component is the error message the except-branch
records for this row, if any. -/
def rowStep (now : Nat) (s : SessState) (raw : JsonVal) :
    SessState × Option String :=
  match validateRow raw with
  | .error e => (s, some e)
  | .ok (title, author, y, g) =>
    match get_or_create_author s author with
    | (s1, .error e) => (s1, some (errText e))
    | (s1, .ok author_id) =>
      let b : Book :=
        { id := nextBookId s1.current.books, title := title,
          author_id := author_id, published_year := y, genre := g,
          created_at := now }
      ({ s1 with current := { s1.current with
          books := s1.current.books ++ [b] } }, none)

/-- The bulk_import row loop: rows in order, 1-indexed; a failing row
appends a (row index, message) entry and the loop continues with the next
row. -/
def runRows (now : Nat) : Nat → List JsonVal → SessState → Nat →
    List (Nat × String) → SessState × Nat × List (Nat × String)
  | _, [], s, inserted, errors => (s, inserted, errors)
  | idx, r :: rest, s, inserted, errors =>
    match rowStep now s r with
    | (s1, none) => runRows now (idx + 1) rest s1 (inserted + 1) errors
    | (s1, some e) => runRows now (idx + 1) rest s1 inserted (errors ++ [(idx, e)])

/-- schemas.py BulkImportResult. -/
structure BulkImportResult where
  inserted : Nat
  errors : List (Nat × String)
deriving DecidableEq, Repr

/-- An uploaded file: its name together with the outcome of decoding its
text by each of the two parser collaborators.  csvRows is the record list
csv.DictReader extracts (empty for an empty file); jsonData is the value
json.loads returns, or none when it raises JSONDecodeError — in particular
json.loads of the empty string raises, so an empty file carries
csvRows = [] and jsonData = none. -/
structure Upload where
  filename : String
  csvRows : List JsonVal
  jsonData : Option JsonVal

/-- The format dispatch of bulk_import: extension tests on the lowercased
filename; a JSON decode error is a 400 (the Invalid JSON detail carries the
interpolated decoder message, elided here); a JSON top-level value that is
not an array is a 400 raised before any row is processed; any other
extension is a 400. -/
def parse_rows (file : Upload) : Except Err (List JsonVal) :=
  if pyEndsWith (pyLower file.filename) ".csv" then
    .ok file.csvRows
  else if pyEndsWith (pyLower file.filename) ".json" then
    match file.jsonData with
    | none => .error (400, "Invalid JSON")
    | some (.arr items) => .ok items
    | some _ => .error (400, "JSON must be an array of book objects")
  else
    .error (400, "Unsupported file type. Use .csv or .json")

/-- services.py bulk_import: parse the payload, run every row in order
starting at index 1, then commit once at the end. -/
def bulk_import (now : Nat) (file : Upload) (s : SessState) :
    SessState × Except Err BulkImportResult :=
  match parse_rows file with
  | .error e => (s, .error e)
  | .ok rows =>
    match runRows now 1 rows s 0 [] with
    | (s1, inserted, errors) =>
      (commitS s1, .ok { inserted := inserted, errors := errors })

/-- The error entry a given row produces, which is independent of the
database state: the validation failures of validateRow, plus the author
resolver rejection of an author that strips to empty (kept for
faithfulness although validateRow already guarantees a nonempty author). -/
def rowError (raw : JsonVal) : Option String :=
  match validateRow raw with
  | .error e => some e
  | .ok (_, author, _, _) =>
    if pyStrip author == "" then
      some (errText (400, "Author name cannot be empty"))
    else none

/-- The ordered (row index, message) list the loop produces from a given
start index. -/
def expectedErrors : Nat → List JsonVal → List (Nat × String)
  | _, [] => []
  | idx, r :: rest =>
    match rowError r with
    | some e => (idx, e) :: expectedErrors (idx + 1) rest
    | none => expectedErrors (idx + 1) rest

/-- The number of rows of the batch that insert successfully. -/
def okCount (rows : List JsonVal) : Nat :=
  rows.countP (fun r => (rowError r).isNone)

/-! ## Book creation under the session discipline (services.py create_book) -/

/-- services.py create_book over an open session.  The four scalar
arguments are the fields of the validated BookCreate payload.  insertFails
injects an infrastructure failure of the book INSERT statement (the store
raising mid-operation); the rest is the sequential body of create_book:
resolve or create the author, insert the book row, commit, then re-read the
created row as the row with id = MAX(id) joined to its author.  The genre
strip mirrors book.genre.strip() (a validated genre is always truthy). -/
def create_book (title author : String) (published_year : Int) (genre : String)
    (now : Nat) (insertFails : Bool) (s : SessState) :
    SessState × Except Err BookOut :=
  match get_or_create_author s author with
  | (s1, .error e) => (s1, .error e)
  | (s1, .ok author_id) =>
    if insertFails then
      (s1, .error (500, "database failure during book insert"))
    else
      let b : Book :=
        { id := nextBookId s1.current.books, title := pyStrip title,
          author_id := author_id, published_year := published_year,
          genre := pyStrip genre, created_at := now }
      let s2 := commitS { s1 with current := { s1.current with
          books := s1.current.books ++ [b] } }
      let mid := s2.current.books.foldl (fun m bb => max m bb.id) 0
      match s2.current.books.find? (fun bb => bb.id == mid) with
      | none => (s2, .error (500, "Failed to create book"))
      | some bb =>
        match s2.current.authors.find? (fun a => a.id == bb.author_id) with
        | none => (s2, .error (500, "Failed to create book"))
        | some a =>
          (s2, .ok { id := bb.id, title := bb.title, author := a.full_name,
                     published_year := bb.published_year, genre := bb.genre,
                     created_at := bb.created_at })

/-- db.py get_db and DatabaseSessionManager.session: the operation runs in
a fresh session over the durable state; on success the manager commits, on
an exception it rolls the session back, so the visible durable state is
whatever had been committed when the operation raised. -/
def run_op {α : Type} (op : SessState → SessState × Except Err α)
    (d : LibDB) : LibDB × Except Err α :=
  match op (sessOf d) with
  | (s, .ok a) => ((commitS s).committed, .ok a)
  | (s, .error e) => (s.committed, .error e)

/-! ## Public read endpoints (services.py list_books and get_book,
main.py get_books and get_book_by_id) -/

/-- Occurrence test of a pattern inside a character list. -/
def charsContain (pat : List Char) : List Char → Bool
  | [] => pat.isEmpty
  | d :: ds => charsLeadMatch pat (d :: ds) || charsContain pat ds

/-- Models the SQL predicate value ILIKE prefix-percent pat
suffix-percent: case-insensitive substring containment. -/
def pyILike (value pat : String) : Bool :=
  charsContain (pyLower pat).data (pyLower value).data

/-- Python truthiness of an optional string query parameter. -/
def pyTruthyStr : Option String → Bool
  | some s => !(s == "")
  | none => false

/-- Python truthiness of an optional integer query parameter. -/
def pyTruthyInt : Option Int → Bool
  | some n => !(n == 0)
  | none => false

/-- The FROM books JOIN authors ON a.id = b.author_id projection every book
query selects. -/
def joinBooks (d : LibDB) : List BookOut :=
  d.books.filterMap (fun b =>
    (d.authors.find? (fun a => a.id == b.author_id)).map (fun a =>
      { id := b.id, title := b.title, author := a.full_name,
        published_year := b.published_year, genre := b.genre,
        created_at := b.created_at }))

/-- The WHERE clauses of list_books: each filter applies only when its
parameter is truthy (so an empty string or a zero year disables the
filter, as in the source). -/
def rowPasses (title author genre : Option String)
    (year_from year_to : Option Int) (r : BookOut) : Bool :=
  (!(pyTruthyStr title) || pyILike r.title (title.getD ""))
  && (!(pyTruthyStr author) || pyILike r.author (author.getD ""))
  && (!(pyTruthyStr genre) || pyILike r.genre (genre.getD ""))
  && (!(pyTruthyInt year_from) || decide ((year_from.getD 0) ≤ r.published_year))
  && (!(pyTruthyInt year_to) || decide (r.published_year ≤ (year_to.getD 0)))

/-- The ORDER BY key of list_books over its fixed column allow-list.  The
SQL order leaves ties unspecified; the model fixes the stable insertion
sort order. -/
def sortKeyLe (sort_by : String) (a b : BookOut) : Bool :=
  if sort_by == "published_year" then decide (a.published_year ≤ b.published_year)
  else if sort_by == "author" then strLe a.author b.author
  else strLe a.title b.title

/-- services.py list_books: validate sort_by against the allow-list and
sort_order against asc/desc (the detail strings elide the Python
quoting), then filter, order, and paginate with
OFFSET (page - 1) * page_size LIMIT page_size. -/
def list_books (d : LibDB) (page page_size : Nat)
    (title author genre : Option String) (year_from year_to : Option Int)
    (sort_by sort_order : String) : Except Err (List BookOut) :=
  if (sort_by == "title" || sort_by == "published_year" || sort_by == "author")
      = false then
    .error (400, "sort_by must be one of [title, published_year, author]")
  else if ((pyLower sort_order == "asc") || (pyLower sort_order == "desc"))
      = false then
    .error (400, "sort_order must be asc or desc")
  else
    let filtered := (joinBooks d).filter
      (rowPasses title author genre year_from year_to)
    let sorted :=
      if pyLower sort_order == "desc" then
        sortWith (fun a b => sortKeyLe sort_by b a) filtered
      else sortWith (sortKeyLe sort_by) filtered
    .ok ((sorted.drop ((page - 1) * page_size)).take page_size)

/-- services.py get_book: the joined row with the requested id, or a 404. -/
def get_book (d : LibDB) (book_id : Nat) : Except Err BookOut :=
  match (joinBooks d).find? (fun r => r.id == book_id) with
  | none => .error (404, "Book not found")
  | some r => .ok r

/-- The inputs of the GET list endpoint of main.py: its query parameters
together with the Authorization bearer header of the request, on which the
endpoint declares no dependency. -/
structure BooksQuery where
  authorization : Option String
  page : Nat
  page_size : Nat
  title : Option String
  author : Option String
  genre : Option String
  year_from : Option Int
  year_to : Option Int
  sort_by : String
  sort_order : String

/-- main.py get_books endpoint: call list_books with the query parameters;
its except-branch wraps any exception, HTTPException included, into a 500
whose detail carries str(e). -/
def get_books (d : LibDB) (q : BooksQuery) : Except Err (List BookOut) :=
  match list_books d q.page q.page_size q.title q.author q.genre
      q.year_from q.year_to q.sort_by q.sort_order with
  | .ok r => .ok r
  | .error e => .error (500, "Error fetching books: " ++ errText e)

/-- main.py get_book_by_id endpoint: call get_book and re-raise its
HTTPException unchanged.  The authorization argument is the bearer header
of the request, unused by the handler. -/
def get_book_by_id (d : LibDB) (book_id : Nat)
    (authorization : Option String) : Except Err BookOut :=
  get_book d book_id

/-! ## Claim theorems about the auth gate -/

/-- C1: a token issued by signin for an existing, authenticated user
resolves through get_current_user to that same user while the token is
unexpired; a token with a tampered signature, a malformed payload, or an
exp claim at or before the current time, and a token whose subject matches
no stored user, all fail with the 401 credentials exception and never
return a user. -/
theorem resolve_token_spec :
    (∀ (key : String) (verify : String → String → Bool) (now nowr : Nat)
        (db : List User) (email password : String) (u : User),
        authenticate_user verify db email password = some u →
        nowr < (create_access_token key u.email now).exp →
        get_current_user key nowr (create_access_token key u.email now) db
          = .ok u) ∧
    (∀ (key : String) (now : Nat) (tok : Token) (db : List User),
        (tok.key == key) = false →
        get_current_user key now tok db = .error credentials_exception) ∧
    (∀ (key : String) (now : Nat) (tok : Token) (db : List User),
        tok.wellFormed = false →
        get_current_user key now tok db = .error credentials_exception) ∧
    (∀ (key : String) (now : Nat) (tok : Token) (db : List User),
        tok.exp ≤ now →
        get_current_user key now tok db = .error credentials_exception) ∧
    (∀ (key : String) (now : Nat) (tok : Token) (db : List User) (e : String),
        tok.sub = some e →
        db.find? (fun u => u.email == e) = none →
        get_current_user key now tok db = .error credentials_exception) := by
  refine ⟨?_, ?_, ?_, ?_, ?_⟩
  · intro key verify now nowr db email password u hauth hlt
    unfold authenticate_user at hauth
    cases hf : db.find? (fun v => v.email == email) with
    | none => rw [hf] at hauth; cases hauth
    | some v =>
      rw [hf] at hauth
      by_cases hv : verify password v.hashed_password
      · simp only [if_pos hv] at hauth
        have hvu : v = u := by injection hauth
        rw [hvu] at hf
        have hemail : u.email = email := by
          have := List.find?_some hf
          simpa using this
        have hlt2 : nowr < now + 15 * 60 := by
          simpa [create_access_token] using hlt
        simp [get_current_user, jwt_decode, create_access_token, hemail, hf,
          Nat.not_le.mpr hlt2]
      · simp [hv] at hauth
  · intro key now tok db h
    unfold get_current_user jwt_decode
    by_cases hw : tok.wellFormed = false <;> simp [hw, h]
  · intro key now tok db h
    unfold get_current_user jwt_decode
    simp [h]
  · intro key now tok db h
    unfold get_current_user jwt_decode
    by_cases hw : tok.wellFormed = false
    · simp [hw]
    · by_cases hk : (tok.key == key) = false <;> simp [hw, hk, h]
  · intro key now tok db e hs hf
    unfold get_current_user jwt_decode
    by_cases hw : tok.wellFormed = false
    · simp [hw]
    · by_cases hk : (tok.key == key) = false
      · simp [hw, hk]
      · by_cases he : tok.exp ≤ now <;> simp [hw, hk, he, hs, hf]

/-- Witness for C1 at concrete inputs: one stored user, matching
credentials, concrete clock values, and concrete bad tokens. -/
theorem resolve_token_spec_witness :
    get_current_user "k" 10
      (create_access_token "k" "a@x.io" 0)
      [⟨1, "a@x.io", "al", "pw", none⟩] = .ok ⟨1, "a@x.io", "al", "pw", none⟩
    ∧ get_current_user "k" 0
        ⟨some "a@x.io", 0, 1000, "access_token", "other", true⟩
        [⟨1, "a@x.io", "al", "pw", none⟩] = .error credentials_exception
    ∧ get_current_user "k" 0
        ⟨some "a@x.io", 0, 1000, "access_token", "k", false⟩
        [⟨1, "a@x.io", "al", "pw", none⟩] = .error credentials_exception
    ∧ get_current_user "k" 2000
        ⟨some "a@x.io", 0, 1000, "access_token", "k", true⟩
        [⟨1, "a@x.io", "al", "pw", none⟩] = .error credentials_exception
    ∧ get_current_user "k" 0
        ⟨some "ghost@x.io", 0, 1000, "access_token", "k", true⟩
        [⟨1, "a@x.io", "al", "pw", none⟩] = .error credentials_exception := by
  refine ⟨?_, ?_, ?_, ?_, ?_⟩
  · exact resolve_token_spec.1 "k" (fun p h => p == h) 0 10
      [⟨1, "a@x.io", "al", "pw", none⟩] "a@x.io" "pw"
      ⟨1, "a@x.io", "al", "pw", none⟩ (by decide) (by decide)
  · exact resolve_token_spec.2.1 "k" 0
      ⟨some "a@x.io", 0, 1000, "access_token", "other", true⟩
      [⟨1, "a@x.io", "al", "pw", none⟩] (by decide)
  · exact resolve_token_spec.2.2.1 "k" 0
      ⟨some "a@x.io", 0, 1000, "access_token", "k", false⟩
      [⟨1, "a@x.io", "al", "pw", none⟩] (by decide)
  · exact resolve_token_spec.2.2.2.1 "k" 2000
      ⟨some "a@x.io", 0, 1000, "access_token", "k", true⟩
      [⟨1, "a@x.io", "al", "pw", none⟩] (by decide)
  · exact resolve_token_spec.2.2.2.2 "k" 0
      ⟨some "ghost@x.io", 0, 1000, "access_token", "k", true⟩
      [⟨1, "a@x.io", "al", "pw", none⟩] "ghost@x.io" rfl (by decide)

/-- C2: authenticate_user yields the same failure value (none, the model of
False) when the email matches no user and when the stored hash does not
verify, and signin consequently fails with the identical 400 error in both
cases. -/
theorem signin_failure_indistinguishable
    (key : String) (verify : String → String → Bool) (now : Nat)
    (db : List User) (email1 pw1 email2 pw2 : String) (u : User)
    (h1 : db.find? (fun v => v.email == email1) = none)
    (h2 : db.find? (fun v => v.email == email2) = some u)
    (h3 : verify pw2 u.hashed_password = false) :
    authenticate_user verify db email1 pw1 = none
    ∧ authenticate_user verify db email2 pw2 = none
    ∧ signin key verify now db email1 pw1
        = .error (400, "Incorrect email or password")
    ∧ signin key verify now db email1 pw1
        = signin key verify now db email2 pw2 := by
  have ha1 : authenticate_user verify db email1 pw1 = none := by
    unfold authenticate_user; rw [h1]
  have ha2 : authenticate_user verify db email2 pw2 = none := by
    unfold authenticate_user; rw [h2]; simp [h3]
  refine ⟨ha1, ha2, ?_, ?_⟩
  · unfold signin; rw [ha1]
  · unfold signin; rw [ha1, ha2]

/-- Witness for C2 at concrete inputs: a one-user table, a nonexistent
email, and a wrong password for the existing email. -/
theorem signin_failure_indistinguishable_witness :
    authenticate_user (fun p h => p == h)
      [⟨1, "a@x.io", "al", "pw", none⟩] "b@x.io" "pw" = none
    ∧ authenticate_user (fun p h => p == h)
        [⟨1, "a@x.io", "al", "pw", none⟩] "a@x.io" "zz" = none
    ∧ signin "k" (fun p h => p == h) 0
        [⟨1, "a@x.io", "al", "pw", none⟩] "b@x.io" "pw"
        = .error (400, "Incorrect email or password")
    ∧ signin "k" (fun p h => p == h) 0
        [⟨1, "a@x.io", "al", "pw", none⟩] "b@x.io" "pw"
        = signin "k" (fun p h => p == h) 0
            [⟨1, "a@x.io", "al", "pw", none⟩] "a@x.io" "zz" :=
  signin_failure_indistinguishable "k" (fun p h => p == h) 0
    [⟨1, "a@x.io", "al", "pw", none⟩] "b@x.io" "pw" "a@x.io" "zz"
    ⟨1, "a@x.io", "al", "pw", none⟩ (by decide) (by decide) (by decide)


/-! ## Claim theorems about the author resolver -/

theorem find?_append_none {α : Type} {p : α → Bool} {l1 l2 : List α}
    (h : l1.find? p = none) : (l1 ++ l2).find? p = l2.find? p := by
  induction l1 with
  | nil => simp
  | cons a t ih =>
    cases hpa : p a with
    | true => simp [List.find?_cons, hpa] at h
    | false =>
      rw [List.find?_cons, hpa] at h
      simp [List.find?_cons, hpa, ih h]

theorem find?_none_filter_nil {α : Type} {p : α → Bool} {l : List α}
    (h : l.find? p = none) : l.filter p = [] := by
  rw [List.filter_eq_nil_iff]
  intro a ha
  exact List.find?_eq_none.mp h a ha

/-- Unfolding equation: an empty-after-strip name is rejected. -/
theorem get_or_create_author_empty (s : SessState) (name : String)
    (h : pyStrip name = "") :
    get_or_create_author s name
      = (s, .error (400, "Author name cannot be empty")) := by
  unfold get_or_create_author
  rw [if_pos (by simpa using h)]

/-- Unfolding equation: a raw name already present resolves to the stored
id with no table change. -/
theorem get_or_create_author_found (s : SessState) (name : String)
    (a : Author) (hne : ¬ pyStrip name = "")
    (hf : s.current.authors.find? (fun x => x.full_name == name) = some a) :
    get_or_create_author s name = (s, .ok a.id) := by
  unfold get_or_create_author
  rw [if_neg (by simpa using hne), hf]

/-- Unfolding equation: a fresh, nonempty raw name appends a single author
row with the next id, commits it, and returns that id. -/
theorem get_or_create_author_insert (s : SessState) (name : String)
    (hne : ¬ pyStrip name = "")
    (hf : s.current.authors.find? (fun a => a.full_name == name) = none) :
    get_or_create_author s name =
      (commitS { committed := s.committed, current :=
          { s.current with authors := s.current.authors ++
              [⟨nextAuthorId s.current.authors, name⟩] } },
        .ok (nextAuthorId s.current.authors)) := by
  unfold get_or_create_author
  rw [if_neg (by simpa using hne), hf]
  have hfil : List.filter (fun a => a.full_name == name)
      (s.current.authors ++ [⟨nextAuthorId s.current.authors, name⟩])
      = [⟨nextAuthorId s.current.authors, name⟩] := by
    rw [List.filter_append, find?_none_filter_nil hf]
    simp
  simp [List.filter_append, find?_none_filter_nil hf, commitS, nextAuthorId]

/-- C3 counterexample: after resolving the raw name X, resolving the
whitespace-variant name (one leading space before X) does not return the
existing id 1; it inserts a second author row and returns id 2, although
the two names agree after stripping. -/
theorem author_whitespace_counterexample :
    get_or_create_author (sessOf ⟨[], []⟩) "X"
        = (sessOf ⟨[⟨1, "X"⟩], []⟩, .ok 1)
    ∧ get_or_create_author (sessOf ⟨[⟨1, "X"⟩], []⟩) " X"
        = (sessOf ⟨[⟨1, "X"⟩, ⟨2, " X"⟩], []⟩, .ok 2)
    ∧ pyStrip " X" = "X"
    ∧ (2 : Nat) ≠ 1 := by
  refine ⟨?_, ?_, ?_, ?_⟩ <;> decide

/-- C3 amended: author resolution strips its input only for the emptiness
check, failing 400 when the name is empty after stripping; otherwise it
looks up an existing author by the exact raw (unstripped) name and returns
that id without touching the table, else inserts and commits one new row
with the next id.  Resolving the same raw string repeatedly yields the same
id and no further rows, but names differing only in surrounding whitespace
are distinct raw names and create distinct rows (see the
counterexample). -/
theorem get_or_create_author_spec (s : SessState) (name : String) :
    (pyStrip name = "" →
      get_or_create_author s name
        = (s, .error (400, "Author name cannot be empty")))
    ∧ (∀ a, ¬ pyStrip name = "" →
        s.current.authors.find? (fun x => x.full_name == name) = some a →
        get_or_create_author s name = (s, .ok a.id))
    ∧ (¬ pyStrip name = "" →
        s.current.authors.find? (fun x => x.full_name == name) = none →
        get_or_create_author s name =
          (commitS { committed := s.committed, current :=
              { s.current with authors := s.current.authors ++
                  [⟨nextAuthorId s.current.authors, name⟩] } },
            .ok (nextAuthorId s.current.authors)))
    ∧ (∀ s1 i, get_or_create_author s name = (s1, .ok i) →
        get_or_create_author s1 name = (s1, .ok i)) := by
  refine ⟨get_or_create_author_empty s name,
    fun a hne hf => get_or_create_author_found s name a hne hf,
    get_or_create_author_insert s name, ?_⟩
  intro s1 i h
  by_cases hne : pyStrip name = ""
  · rw [get_or_create_author_empty s name hne] at h
    rw [Prod.mk.injEq] at h
    exact absurd h.2 (by simp)
  · cases hf : s.current.authors.find? (fun x => x.full_name == name) with
    | some a =>
      rw [get_or_create_author_found s name a hne hf] at h
      rw [Prod.mk.injEq] at h
      obtain ⟨hs, hi⟩ := h
      injection hi with hi
      subst hs
      rw [get_or_create_author_found s name a hne hf, hi]
    | none =>
      rw [get_or_create_author_insert s name hne hf] at h
      rw [Prod.mk.injEq] at h
      obtain ⟨hs, hi⟩ := h
      injection hi with hi
      subst hs
      subst hi
      have hfind2 : ((commitS { committed := s.committed, current :=
          { s.current with authors := s.current.authors ++
              [⟨nextAuthorId s.current.authors, name⟩] } }).current.authors).find?
            (fun x => x.full_name == name)
          = some ⟨nextAuthorId s.current.authors, name⟩ := by
        simp only [commitS]
        rw [find?_append_none hf]
        simp [List.find?_cons]
      exact get_or_create_author_found _ name
        ⟨nextAuthorId s.current.authors, name⟩ hne hfind2

/-- Witness for C3 amended at concrete inputs: empty-after-strip rejection,
lookup of an existing raw name, insertion of a fresh name, and idempotent
re-resolution of that same raw name. -/
theorem get_or_create_author_spec_witness :
    get_or_create_author (sessOf ⟨[⟨1, "X"⟩], []⟩) "  "
        = (sessOf ⟨[⟨1, "X"⟩], []⟩, .error (400, "Author name cannot be empty"))
    ∧ get_or_create_author (sessOf ⟨[⟨1, "X"⟩], []⟩) "X"
        = (sessOf ⟨[⟨1, "X"⟩], []⟩, .ok 1)
    ∧ get_or_create_author (sessOf ⟨[⟨1, "X"⟩], []⟩) "Y"
        = (sessOf ⟨[⟨1, "X"⟩, ⟨2, "Y"⟩], []⟩, .ok 2)
    ∧ get_or_create_author (sessOf ⟨[⟨1, "X"⟩, ⟨2, "Y"⟩], []⟩) "Y"
        = (sessOf ⟨[⟨1, "X"⟩, ⟨2, "Y"⟩], []⟩, .ok 2) := by
  refine ⟨?_, ?_, ?_, ?_⟩
  · exact (get_or_create_author_spec (sessOf ⟨[⟨1, "X"⟩], []⟩) "  ").1 (by decide)
  · exact (get_or_create_author_spec (sessOf ⟨[⟨1, "X"⟩], []⟩) "X").2.1
      ⟨1, "X"⟩ (by decide) (by decide)
  · exact (get_or_create_author_spec (sessOf ⟨[⟨1, "X"⟩], []⟩) "Y").2.2.1
      (by decide) (by decide)
  · exact (get_or_create_author_spec (sessOf ⟨[⟨1, "X"⟩], []⟩) "Y").2.2.2
      (sessOf ⟨[⟨1, "X"⟩, ⟨2, "Y"⟩], []⟩) 2
      ((get_or_create_author_spec (sessOf ⟨[⟨1, "X"⟩], []⟩) "Y").2.2.1
        (by decide) (by decide))

/-! ## Claim theorems about the bulk importer -/

/-- Whether a row succeeds, and the message it records when it fails, is a
pure function of the row, independent of the session state. -/
theorem rowStep_err (now : Nat) (s : SessState) (raw : JsonVal) :
    (rowStep now s raw).2 = rowError raw := by
  unfold rowStep rowError
  cases hv : validateRow raw with
  | error e => simp
  | ok q =>
    obtain ⟨title, author, y, g⟩ := q
    by_cases ha : pyStrip author = ""
    · simp [get_or_create_author_empty s author ha, ha]
    · cases hf : s.current.authors.find? (fun x => x.full_name == author) with
      | some a =>
        simp [get_or_create_author_found s author a ha hf, ha]
      | none =>
        simp [get_or_create_author_insert s author ha hf, ha]

/-- The loop counts exactly the rows whose rowError is none. -/
theorem runRows_inserted (now : Nat) (rows : List JsonVal) :
    ∀ (idx : Nat) (s : SessState) (ins : Nat) (errs : List (Nat × String)),
    (runRows now idx rows s ins errs).2.1 = ins + okCount rows := by
  induction rows with
  | nil => intro idx s ins errs; simp [runRows, okCount]
  | cons r rest ih =>
    intro idx s ins errs
    have hre := rowStep_err now s r
    cases hstep : rowStep now s r with
    | mk s1 e =>
      rw [hstep] at hre
      cases e with
      | none =>
        have hnone : rowError r = none := hre.symm
        simp only [runRows, hstep]
        rw [ih (idx + 1) s1 (ins + 1) errs]
        simp [okCount, List.countP_cons, hnone]
        omega
      | some msg =>
        have hsome : rowError r = some msg := hre.symm
        simp only [runRows, hstep]
        rw [ih (idx + 1) s1 ins (errs ++ [(idx, msg)])]
        simp [okCount, List.countP_cons, hsome]

/-- The loop records exactly the (index, message) entries of the failing
rows, in row order, 1-indexed from the given start. -/
theorem runRows_errors (now : Nat) (rows : List JsonVal) :
    ∀ (idx : Nat) (s : SessState) (ins : Nat) (errs : List (Nat × String)),
    (runRows now idx rows s ins errs).2.2 = errs ++ expectedErrors idx rows := by
  induction rows with
  | nil => intro idx s ins errs; simp [runRows, expectedErrors]
  | cons r rest ih =>
    intro idx s ins errs
    have hre := rowStep_err now s r
    cases hstep : rowStep now s r with
    | mk s1 e =>
      rw [hstep] at hre
      cases e with
      | none =>
        have hnone : rowError r = none := hre.symm
        simp only [runRows, hstep]
        rw [ih (idx + 1) s1 (ins + 1) errs]
        simp [expectedErrors, hnone]
      | some msg =>
        have hsome : rowError r = some msg := hre.symm
        simp only [runRows, hstep]
        rw [ih (idx + 1) s1 ins (errs ++ [(idx, msg)])]
        simp [expectedErrors, hsome]

/-- C4 counterexample: an empty uploaded .json file (its text makes
json.loads raise a JSONDecodeError) is rejected whole with a 400; it does
not yield inserted = 0 with an empty error list. -/
theorem bulk_import_empty_json_counterexample :
    bulk_import 0 { filename := "books.json", csvRows := [], jsonData := none }
        (sessOf ⟨[], []⟩)
      = (sessOf ⟨[], []⟩, .error (400, "Invalid JSON"))
    ∧ (bulk_import 0 { filename := "books.json", csvRows := [], jsonData := none }
        (sessOf ⟨[], []⟩)).2 ≠ .ok { inserted := 0, errors := [] } := by
  exact ⟨by decide, by decide⟩

/-- C4 amended: bulk import processes rows in order, 1-indexed; a failure
on one row records its (row index, message) entry and never aborts later
rows or the batch; the result reports the count of successfully inserted
rows plus the ordered error list, for JSON-array and CSV payloads alike.
The two-element JSON example yields inserted = 1 with exactly one error
entry referencing row 2.  An empty CSV file yields inserted = 0 and
errors = []; an empty JSON file, however, fails json.loads and is rejected
whole with a 400 (see the counterexample), so the empty-file clause of the
claim holds only for the CSV format. -/
theorem bulk_import_spec :
    (∀ (now : Nat) (file : Upload) (s : SessState) (rows : List JsonVal),
        pyEndsWith (pyLower file.filename) ".csv" = false →
        pyEndsWith (pyLower file.filename) ".json" = true →
        file.jsonData = some (.arr rows) →
        (bulk_import now file s).2
          = .ok { inserted := okCount rows, errors := expectedErrors 1 rows })
    ∧ (∀ (now : Nat) (file : Upload) (s : SessState),
        pyEndsWith (pyLower file.filename) ".csv" = true →
        (bulk_import now file s).2
          = .ok { inserted := okCount file.csvRows,
                  errors := expectedErrors 1 file.csvRows })
    ∧ bulk_import 0
        { filename := "books.json", csvRows := [],
          jsonData := some (.arr
            [.obj [("title", .str "A"), ("author", .str "B"),
                   ("published_year", .int 1999), ("genre", .str "Fiction")],
             .obj [("title", .str ""), ("author", .str "B"),
                   ("published_year", .int 1999), ("genre", .str "Fiction")]]) }
        (sessOf ⟨[], []⟩)
        = (sessOf ⟨[⟨1, "B"⟩], [⟨1, "A", 1, 1999, "Fiction", 0⟩]⟩,
           .ok { inserted := 1, errors := [(2, "title is required")] })
    ∧ (∀ (now : Nat) (s : SessState),
        bulk_import now { filename := "books.csv", csvRows := [], jsonData := none } s
          = (commitS s, .ok { inserted := 0, errors := [] }))
    ∧ (∀ (now : Nat) (s : SessState),
        bulk_import now { filename := "books.json", csvRows := [], jsonData := none } s
          = (s, .error (400, "Invalid JSON"))) := by
  refine ⟨?_, ?_, by decide, ?_, ?_⟩
  · intro now file s rows hcsv hjson hdata
    have h1 := runRows_inserted now rows 1 s 0 []
    have h2 := runRows_errors now rows 1 s 0 []
    cases hrun : runRows now 1 rows s 0 [] with
    | mk s1 q =>
      cases q with
      | mk ins errs2 =>
        rw [hrun] at h1 h2
        simp at h1 h2
        simp [bulk_import, parse_rows, hcsv, hjson, hdata, hrun, h1, h2]
  · intro now file s hcsv
    have h1 := runRows_inserted now file.csvRows 1 s 0 []
    have h2 := runRows_errors now file.csvRows 1 s 0 []
    cases hrun : runRows now 1 file.csvRows s 0 [] with
    | mk s1 q =>
      cases q with
      | mk ins errs2 =>
        rw [hrun] at h1 h2
        simp at h1 h2
        simp [bulk_import, parse_rows, hcsv, hrun, h1, h2]
  · intro now s
    rfl
  · intro now s
    rfl

/-- Witness for C4 amended at concrete inputs: the JSON-array branch on the
two-element example, and the CSV branch on the one-row CSV example (its
published_year arriving as the digit string 2020, as csv.DictReader yields
it). -/
theorem bulk_import_spec_witness :
    (bulk_import 0
        { filename := "books.json", csvRows := [],
          jsonData := some (.arr
            [.obj [("title", .str "A"), ("author", .str "B"),
                   ("published_year", .int 1999), ("genre", .str "Fiction")],
             .obj [("title", .str ""), ("author", .str "B"),
                   ("published_year", .int 1999), ("genre", .str "Fiction")]]) }
        (sessOf ⟨[], []⟩)).2
      = .ok { inserted := 1, errors := [(2, "title is required")] }
    ∧ (bulk_import 0
        { filename := "books.csv",
          csvRows :=
            [.obj [("title", .str "Book1"), ("author", .str "Author1"),
                   ("published_year", .str "2020"), ("genre", .str "Fiction")]],
          jsonData := none }
        (sessOf ⟨[], []⟩)).2
      = .ok { inserted := 1, errors := [] } := by
  constructor
  · exact bulk_import_spec.1 0
      { filename := "books.json", csvRows := [],
        jsonData := some (.arr
          [.obj [("title", .str "A"), ("author", .str "B"),
                 ("published_year", .int 1999), ("genre", .str "Fiction")],
           .obj [("title", .str ""), ("author", .str "B"),
                 ("published_year", .int 1999), ("genre", .str "Fiction")]]) }
      (sessOf ⟨[], []⟩) _ (by decide) (by decide) rfl
  · exact bulk_import_spec.2.1 0
      { filename := "books.csv",
        csvRows :=
          [.obj [("title", .str "Book1"), ("author", .str "Author1"),
                 ("published_year", .str "2020"), ("genre", .str "Fiction")]],
        jsonData := none }
      (sessOf ⟨[], []⟩) (by decide)

/-- C5: a JSON upload whose top-level decoded value is not an array fails
the whole operation immediately with a 400, before any row is processed:
the session is returned untouched, nothing is inserted, and no per-row
error entry is produced. -/
theorem bulk_import_non_array_rejected
    (now : Nat) (file : Upload) (s : SessState) (v : JsonVal)
    (hcsv : pyEndsWith (pyLower file.filename) ".csv" = false)
    (hjson : pyEndsWith (pyLower file.filename) ".json" = true)
    (hdata : file.jsonData = some v)
    (hnarr : ∀ xs, v ≠ JsonVal.arr xs) :
    bulk_import now file s
      = (s, .error (400, "JSON must be an array of book objects")) := by
  cases v with
  | arr xs => exact absurd rfl (hnarr xs)
  | null => simp [bulk_import, parse_rows, hcsv, hjson, hdata]
  | str s2 => simp [bulk_import, parse_rows, hcsv, hjson, hdata]
  | int n => simp [bulk_import, parse_rows, hcsv, hjson, hdata]
  | obj fs => simp [bulk_import, parse_rows, hcsv, hjson, hdata]

/-- Witness for C5 at a concrete input: a .json upload decoding to a single
object rather than an array. -/
theorem bulk_import_non_array_rejected_witness :
    bulk_import 0
      { filename := "books.json", csvRows := [],
        jsonData := some (.obj [("title", .str "A")]) }
      (sessOf ⟨[], []⟩)
    = (sessOf ⟨[], []⟩, .error (400, "JSON must be an array of book objects")) :=
  bulk_import_non_array_rejected 0
    { filename := "books.json", csvRows := [],
      jsonData := some (.obj [("title", .str "A")]) }
    (sessOf ⟨[], []⟩) (.obj [("title", .str "A")])
    (by decide) (by decide) rfl (fun xs h => nomatch h)

/-! ## Claim theorems about field validation -/

/-- C6: at each of the three entry points — direct create (BookCreate
validator), update (BookUpdate validator), and bulk import (per-row check)
— a published_year passes exactly when 1800 ≤ year ≤ 2025 and is otherwise
rejected with the validation error of that path, so 1799 and every year
above the current year 2025 are rejected on all three paths and every year
in [1800, 2025] passes the year check on all three. -/
theorem published_year_validation_spec (y : Int) :
    (BookCreate.published_year_valid y = .ok y ↔ (1800 ≤ y ∧ y ≤ 2025))
    ∧ (BookCreate.published_year_valid y
        = .error "Enter a valid published year(between 1800 and Current year)"
        ↔ (y < 1800 ∨ y > 2025))
    ∧ (BookUpdate.published_year_valid y = .ok y ↔ (1800 ≤ y ∧ y ≤ 2025))
    ∧ (BookUpdate.published_year_valid y
        = .error "Enter a valid published year(between 1800 and Current year)"
        ↔ (y < 1800 ∨ y > 2025))
    ∧ (rowError (.obj [("title", .str "T"), ("author", .str "A"),
          ("published_year", .int y), ("genre", .str "Fiction")])
        = none ↔ (1800 ≤ y ∧ y ≤ 2025))
    ∧ (rowError (.obj [("title", .str "T"), ("author", .str "A"),
          ("published_year", .int y), ("genre", .str "Fiction")])
        = some "published_year must be between 1800 and 2025"
        ↔ (y < 1800 ∨ y > 2025)) := by
  have hv : validateRow (.obj [("title", .str "T"), ("author", .str "A"),
        ("published_year", .int y), ("genre", .str "Fiction")])
      = if y < 1800 ∨ y > CURRENT_YEAR then
          .error "published_year must be between 1800 and 2025"
        else .ok ("T", "A", y, "Fiction") := rfl
  by_cases hy : y < 1800 ∨ y > CURRENT_YEAR
  · have hv1 : validateRow (.obj [("title", .str "T"), ("author", .str "A"),
          ("published_year", .int y), ("genre", .str "Fiction")])
        = .error "published_year must be between 1800 and 2025" := by
      rw [hv, if_pos hy]
    have hr : rowError (.obj [("title", .str "T"), ("author", .str "A"),
          ("published_year", .int y), ("genre", .str "Fiction")])
        = some "published_year must be between 1800 and 2025" := by
      unfold rowError
      rw [hv1]
    unfold CURRENT_YEAR at hy
    refine ⟨?_, ?_, ?_, ?_, ?_, ?_⟩ <;>
      simp [BookCreate.published_year_valid, BookUpdate.published_year_valid,
        CURRENT_YEAR, hr, hy] <;> omega
  · have hv2 : validateRow (.obj [("title", .str "T"), ("author", .str "A"),
          ("published_year", .int y), ("genre", .str "Fiction")])
        = .ok ("T", "A", y, "Fiction") := by
      rw [hv, if_neg hy]
    have hr : rowError (.obj [("title", .str "T"), ("author", .str "A"),
          ("published_year", .int y), ("genre", .str "Fiction")])
        = none := by
      unfold rowError
      rw [hv2]
      rfl
    unfold CURRENT_YEAR at hy
    refine ⟨?_, ?_, ?_, ?_, ?_, ?_⟩ <;>
      simp [BookCreate.published_year_valid, BookUpdate.published_year_valid,
        CURRENT_YEAR, hr, hy] <;> omega

/-- C7: on the direct create and update paths a genre is accepted exactly
when its lowercasing matches the lowercasing of one of the four canonical
spellings, and it is then canonicalized to that canonical spelling; on the
bulk-import path a row genre is accepted exactly when it equals a canonical
spelling verbatim — so the lowercase spelling fiction is accepted and
canonicalized by the create validator yet rejected as a row error by bulk
import. -/
theorem genre_validation_spec (g : String) :
    (BookCreate.genre_valid g =
        (if pyLower g == pyLower "Fiction" then .ok "Fiction"
         else if pyLower g == pyLower "Non-fiction" then .ok "Non-fiction"
         else if pyLower g == pyLower "Science" then .ok "Science"
         else if pyLower g == pyLower "History" then .ok "History"
         else .error "Enter appropriate genre: Fiction, Non-fiction, Science, History"))
    ∧ (BookUpdate.genre_valid g =
        (if pyLower g == pyLower "Fiction" then .ok "Fiction"
         else if pyLower g == pyLower "Non-fiction" then .ok "Non-fiction"
         else if pyLower g == pyLower "Science" then .ok "Science"
         else if pyLower g == pyLower "History" then .ok "History"
         else .error "Enter appropriate genre: Fiction, Non-fiction, Science, History"))
    ∧ (rowError (.obj [("title", .str "T"), ("author", .str "A"),
          ("published_year", .int 1999), ("genre", .str g)])
        = if book_genres.contains g then none else some bulk_genre_error)
    ∧ BookCreate.genre_valid "fiction" = .ok "Fiction"
    ∧ rowError (.obj [("title", .str "T"), ("author", .str "A"),
          ("published_year", .int 1999), ("genre", .str "fiction")])
        = some bulk_genre_error := by
  have hbgl : book_genres_lower = ["fiction", "non-fiction", "science", "history"] := rfl
  have hval : ∀ h : String, BookCreate.genre_valid h = BookUpdate.genre_valid h := by
    intro h
    unfold BookCreate.genre_valid BookUpdate.genre_valid
    rfl
  have hcu : BookCreate.genre_valid g =
      (if pyLower g == pyLower "Fiction" then .ok "Fiction"
       else if pyLower g == pyLower "Non-fiction" then .ok "Non-fiction"
       else if pyLower g == pyLower "Science" then .ok "Science"
       else if pyLower g == pyLower "History" then .ok "History"
       else .error "Enter appropriate genre: Fiction, Non-fiction, Science, History") := by
    unfold BookCreate.genre_valid
    rw [hbgl]
    by_cases h1 : pyLower g = "fiction"
    · simp only [h1]; decide
    · by_cases h2 : pyLower g = "non-fiction"
      · simp only [h2]; decide
      · by_cases h3 : pyLower g = "science"
        · simp only [h3]; decide
        · by_cases h4 : pyLower g = "history"
          · simp only [h4]; decide
          · have hlF : pyLower "Fiction" = "fiction" := rfl
            have hlN : pyLower "Non-fiction" = "non-fiction" := rfl
            have hlS : pyLower "Science" = "science" := rfl
            have hlH : pyLower "History" = "history" := rfl
            simp [h1, h2, h3, h4, hlF, hlN, hlS, hlH, List.contains]
            decide
  have hv : validateRow (.obj [("title", .str "T"), ("author", .str "A"),
        ("published_year", .int 1999), ("genre", .str g)])
      = if book_genres.contains g then .ok ("T", "A", (1999 : Int), g)
        else .error bulk_genre_error := rfl
  have hbulk : rowError (.obj [("title", .str "T"), ("author", .str "A"),
        ("published_year", .int 1999), ("genre", .str g)])
      = if book_genres.contains g then none else some bulk_genre_error := by
    by_cases hc : book_genres.contains g = true
    · have hv2 : validateRow (.obj [("title", .str "T"), ("author", .str "A"),
            ("published_year", .int 1999), ("genre", .str g)])
          = .ok ("T", "A", (1999 : Int), g) := by
        rw [hv, if_pos hc]
      unfold rowError
      rw [hv2, if_pos hc]
      rfl
    · have hv3 : validateRow (.obj [("title", .str "T"), ("author", .str "A"),
            ("published_year", .int 1999), ("genre", .str g)])
          = .error bulk_genre_error := by
        rw [hv, if_neg hc]
      unfold rowError
      rw [hv3, if_neg hc]
  exact ⟨hcu, (hval g).symm.trans hcu, hbulk, by decide, by decide⟩

/-! ## Claim theorems about sign-out, transactional rollback, and the
public read endpoints -/

/-- C8, evaluation at the failing input: a signed-in user with a stored
refresh token calls the signout endpoint.  main.py logout passes the whole
user row as the user_email argument of signout, the UPDATE binds a
non-string parameter and raises, the endpoint answers with its 500
except-branch, and the refresh token is left in place — whereas the
service-level signout, applied to the email string the endpoint should
have passed, does clear the token. -/
theorem logout_leaves_refresh_token :
    logout
        ⟨1, "a@x.io", "al", "pw", some (create_refresh_token "k" "a@x.io" 0)⟩
        [⟨1, "a@x.io", "al", "pw", some (create_refresh_token "k" "a@x.io" 0)⟩]
      = ([⟨1, "a@x.io", "al", "pw", some (create_refresh_token "k" "a@x.io" 0)⟩],
         .error (500, "Error signing out"))
    ∧ signout (SqlParam.str "a@x.io")
        [⟨1, "a@x.io", "al", "pw", some (create_refresh_token "k" "a@x.io" 0)⟩]
      = .ok [⟨1, "a@x.io", "al", "pw", none⟩] := by
  exact ⟨by decide, by decide⟩

/-- C9 counterexample: create_book on an empty store with a fresh author
name, failing at the book INSERT, leaves the author row durably behind:
the visible state after the rollback holds the new author (and no book),
not the untouched original state the claim promises. -/
theorem create_book_partial_state_counterexample :
    run_op (create_book "T" "Tolstoy" 2000 "Fiction" 5 true) ⟨[], []⟩
      = (⟨[⟨1, "Tolstoy"⟩], []⟩,
         .error (500, "database failure during book insert"))
    ∧ (run_op (create_book "T" "Tolstoy" 2000 "Fiction" 5 true) ⟨[], []⟩).1
        ≠ (⟨[], []⟩ : LibDB) := by
  exact ⟨by decide, by decide⟩

/-- C9 amended: when create_book fails after author resolution (an
infrastructure failure of the book INSERT), the enclosing session rolls
back its uncommitted writes, so no book row persists and the operation
surfaces the error; but the author resolver has already committed the
newly created author row inside _get_or_create_author, so that row remains
durably in the store — the rollback protects the book insert only, not the
whole operation. -/
theorem create_book_failure_spec
    (d : LibDB) (title author : String) (py : Int) (genre : String)
    (now : Nat)
    (hne : ¬ pyStrip author = "")
    (hf : d.authors.find? (fun a => a.full_name == author) = none) :
    run_op (create_book title author py genre now true) d
      = ({ authors := d.authors ++ [⟨nextAuthorId d.authors, author⟩],
           books := d.books },
         .error (500, "database failure during book insert")) := by
  unfold run_op create_book
  rw [get_or_create_author_insert (sessOf d) author hne hf]
  simp [commitS, sessOf]

/-- Witness for C9 amended at concrete inputs: one unrelated author in the
store, a fresh author name, and the injected insert failure. -/
theorem create_book_failure_spec_witness :
    run_op (create_book "War" "Tolstoy" 2000 "Fiction" 5 true)
        ⟨[⟨1, "Pushkin"⟩], []⟩
      = (⟨[⟨1, "Pushkin"⟩, ⟨2, "Tolstoy"⟩], []⟩,
         .error (500, "database failure during book insert")) :=
  create_book_failure_spec ⟨[⟨1, "Pushkin"⟩], []⟩ "War" "Tolstoy" 2000
    "Fiction" 5 (by decide) (by decide)

/-- C10: the list-books and get-book-by-id endpoints take no dependency on
the auth gate; their responses are identical for any two requests that
differ only in the Authorization bearer token, including requests with no
token at all. -/
theorem public_book_reads_ignore_token
    (d : LibDB) (q : BooksQuery) (t1 t2 : Option String) (book_id : Nat) :
    get_books d { q with authorization := t1 }
      = get_books d { q with authorization := t2 }
    ∧ get_book_by_id d book_id t1 = get_book_by_id d book_id t2 := by
  exact ⟨rfl, rfl⟩
